import Mathlib

/-!
Shallow embedding of the IP-geolocation pipeline of `src/main.py`:
the time-bounded cache (`load_cache` / `save_cache`), the address
resolver (`get_ip_address`) and the geolocation lookup with rate-limit
fallback (`get_ip_info`).  Network I/O is modelled by passing in the
responses the remote endpoints would give; `time.time()` is passed in
as an explicit clock value.  JSON scalar values are modelled by `JVal`
(the code performs no arithmetic on JSON numbers, so integers suffice
for every value the claims mention); JSON objects are association
lists with Python-`dict` lookup and insertion-order update semantics.
-/

namespace IpApp

/-- A JSON scalar value as the Python code sees it after `resp.json()`. -/
inductive JVal where
  | str (s : String)
  | num (n : Int)
  | bool (b : Bool)
  | null
deriving DecidableEq, Repr

/-- Python truthiness of a JSON scalar (`if v:` / `v or w`):
empty string, zero, `False` and `None` are falsy. -/
def JVal.truthy : JVal → Bool
  | .str s => !s.isEmpty
  | .num n => n != 0
  | .bool b => b
  | .null => false

/-- A parsed JSON object (a Python `dict`), modelled as an association
list; `lookup` is `dict.get`. -/
abbrev JDict := List (String × JVal)

/-- `d.get(k) or default`, then the next link of an `or`-chain:
a present but falsy value behaves like an absent key. -/
def getTruthy (d : JDict) (k : String) : Option JVal :=
  match d.lookup k with
  | some v => if v.truthy then some v else none
  | none => none

/-- Python truthiness of a `dict` (`if cached:`): empty dict is falsy. -/
def dictTruthy (d : JDict) : Bool := !d.isEmpty

/-- `resp.raise_for_status()` raises `requests.HTTPError` exactly for
4xx and 5xx status codes. -/
def isHttpError (status : Nat) : Bool := 400 ≤ status && status < 600

/-! ## Cache store (`load_cache` / `save_cache`, src/main.py lines 17-35) -/

/-- `CACHE_TTL = 24 * 3600  # 24 hours` -/
def CACHE_TTL : Int := 24 * 3600

/-- One value of the cache file's top-level mapping:
`{"timestamp": number, "info": object}`. -/
structure CacheEntry where
  timestamp : Int
  info : JDict
deriving DecidableEq, Repr

/-- The parsed content of the cache file: the top-level mapping from
IP-address string to `CacheEntry`. -/
abbrev Store := List (String × CacheEntry)

/-- The cache file itself: `none` when `CACHE_FILE` does not exist. -/
abbrev CacheFile := Option Store

/-- Python `data[ip] = entry` on a `dict`: replace in place when the key
exists, append otherwise. -/
def dictInsert (data : Store) (ip : String) (e : CacheEntry) : Store :=
  if (data.lookup ip).isSome then
    data.map (fun p => if p.1 == ip then (p.1, e) else p)
  else
    data ++ [(ip, e)]

/-- `load_cache(ip_address)`: `None` if the cache file does not exist,
the store has no entry for the IP, or the entry is older than
`CACHE_TTL`; otherwise the entry's `info`. -/
def load_cache (file : CacheFile) (now : Int) (ip_address : String) : Option JDict :=
  match file with
  | none => none
  | some data =>
    match data.lookup ip_address with
    | none => none
    | some entry =>
      if now - entry.timestamp > CACHE_TTL then none else some entry.info

/-- `save_cache(ip_address, info)`: load the whole existing store (empty
if the file does not exist), upsert the entry for the IP with the
current timestamp, and write the whole store back.  The result is the
new content of the cache file. -/
def save_cache (file : CacheFile) (now : Int) (ip_address : String) (info : JDict) : Store :=
  let data : Store := file.getD []
  dictInsert data ip_address ⟨now, info⟩

/-! ## Address resolver (`get_ip_address`, src/main.py lines 43-70) -/

/-- The transport-level outcome of one `requests.get` against an echo
endpoint: a response with a status code and a text body, or a raised
`requests.RequestException` carrying a message. -/
inductive EchoResp where
  | ok (status : Nat) (text : String)
  | exn (msg : String)
deriving DecidableEq, Repr

/-- The message `last_error` holds after a failed attempt: the
transport exception, or the `HTTPError` from `raise_for_status`. -/
def echoErrMsg : EchoResp → Option String
  | .ok s _ => if isHttpError s then some ("HTTPError " ++ toString s) else none
  | .exn m => some m

/-- Whether an attempt against an endpoint fails (transport exception,
or `raise_for_status` raising on a 4xx/5xx status). -/
def echoFails (r : EchoResp) : Bool :=
  match r with
  | .ok s _ => isHttpError s
  | .exn _ => true

/-- Outcome of `get_ip_address`: the returned IP string, or the
distinct terminal failures (each a separate `typer.Exit(1)` site with
its own message). -/
inductive ResolveResult where
  | ok (ip : String)
  | invalidType
  | ipv6Unsupported
  | networkFailure (lastError : Option String)
deriving DecidableEq, Repr

/-- The `for url in urls` loop: first success short-circuits; each
failure records `last_error`; on exhaustion the failure kind depends on
`ip_type`. -/
def resolveLoop (env : String → EchoResp) (ip_type : String) :
    List String → Option String → ResolveResult
  | [], lastError =>
    if ip_type == "ipv6" then .ipv6Unsupported else .networkFailure lastError
  | url :: rest, lastError =>
    match env url with
    | .ok s text =>
      if isHttpError s then
        resolveLoop env ip_type rest (echoErrMsg (.ok s text))
      else
        .ok text.trim
    | .exn m => resolveLoop env ip_type rest (some m)

/-- `get_ip_address(ip_type, proxy)`: validate the version, then try the
version's echo endpoints in order.  `env` maps each URL to the response
the network would give. -/
def get_ip_address (env : String → EchoResp) (ip_type : String) : ResolveResult :=
  if ip_type != "ipv4" && ip_type != "ipv6" then
    .invalidType
  else
    let urls :=
      if ip_type == "ipv4" then ["https://api.ipify.org"]
      else ["https://api6.ipify.org", "https://ipv6.icanhazip.com"]
    resolveLoop env ip_type urls none

/-! ## Geo lookup (`get_ip_info`, src/main.py lines 72-125) -/

/-- The transport-level outcome of one `requests.get` against a geo
provider: a response with a status code and a parsed JSON body, or a
raised `requests.RequestException` carrying a message. -/
inductive HttpResult where
  | ok (status : Nat) (body : JDict)
  | exn (msg : String)
deriving DecidableEq, Repr

/-- The responses the two geo providers would give to this lookup:
`primary` for `https://ipapi.co/<ip>/json/`, `fallback` for
`https://geolocation-db.com/json/<ip>&position=true`. -/
structure Net where
  primary : HttpResult
  fallback : HttpResult
deriving DecidableEq, Repr

/-- One network request issued by `get_ip_info`. -/
inductive Call where
  | primary
  | fallback
deriving DecidableEq, Repr

/-- Outcome of `get_ip_info`: the returned record, or one of the
distinct terminal failures (each a separate `typer.echo` + exit site). -/
inductive LookupResult where
  | ok (info : JDict)
  | apiError (msg : JVal)
  | providerError (status : Nat)
  | networkFailure (msg : String)
  | fallbackFailure (msg : String)
deriving DecidableEq, Repr

/-- Whether the lookup returned a record rather than exiting. -/
def LookupResult.isOk : LookupResult → Bool
  | .ok _ => true
  | _ => false

/-- Everything observable about one `get_ip_info` invocation: its
outcome, the cache file afterwards, the network requests issued in
order, whether `load_cache` was invoked, and whether `save_cache` was
invoked. -/
structure LookupOut where
  result : LookupResult
  file : CacheFile
  calls : List Call
  cacheRead : Bool
  wrote : Bool
deriving DecidableEq, Repr

/-- The fallback mapping (src/main.py lines 105-113): build the
canonical record from the secondary provider's heterogeneous fields,
each via a Python `or`-chain. -/
def fallbackMap (fbdata : JDict) : JDict :=
  [("country_name", ((getTruthy fbdata "country_name").orElse
      fun _ => getTruthy fbdata "country").getD (.str "N/A")),
   ("city", (getTruthy fbdata "city").getD (.str "N/A")),
   ("latitude", (getTruthy fbdata "latitude").getD (.num 0)),
   ("longitude", (getTruthy fbdata "longitude").getD (.num 0)),
   ("org", (getTruthy fbdata "IPv4").getD (.str "N/A")),
   ("asn", .str "N/A")]

/-- The network phase of `get_ip_info`, entered after the cache check:
GET the primary provider; `raise_for_status`; on a 429 `HTTPError` run
the fallback path, on any other `HTTPError` exit with the provider
error; on a transport exception exit with a network error; on a 2xx
body carrying a truthy `error` field exit with the API error; on
success `save_cache` and return the record. -/
def geoFetch (net : Net) (file : CacheFile) (now : Int) (ip_address : String)
    (cacheRead : Bool) : LookupOut :=
  match net.primary with
  | .exn msg =>
    ⟨.networkFailure msg, file, [.primary], cacheRead, false⟩
  | .ok status body =>
    if isHttpError status then
      if status == 429 then
        match net.fallback with
        | .exn msg =>
          ⟨.fallbackFailure msg, file, [.primary, .fallback], cacheRead, false⟩
        | .ok fbStatus fbdata =>
          if isHttpError fbStatus then
            ⟨.fallbackFailure ("HTTPError " ++ toString fbStatus), file,
              [.primary, .fallback], cacheRead, false⟩
          else
            let data := fallbackMap fbdata
            ⟨.ok data, some (save_cache file now ip_address data),
              [.primary, .fallback], cacheRead, true⟩
      else
        ⟨.providerError status, file, [.primary], cacheRead, false⟩
    else
      match body.lookup "error" with
      | some v =>
        if v.truthy then
          ⟨.apiError v, file, [.primary], cacheRead, false⟩
        else
          ⟨.ok body, some (save_cache file now ip_address body),
            [.primary], cacheRead, true⟩
      | none =>
        ⟨.ok body, some (save_cache file now ip_address body),
          [.primary], cacheRead, true⟩

/-- `get_ip_info(ip_address, proxy, skip_cache)`: unless `skip_cache`,
consult the cache and return a truthy cached record immediately with no
network call; otherwise run the network phase. -/
def get_ip_info (net : Net) (file : CacheFile) (now : Int)
    (ip_address : String) (skip_cache : Bool) : LookupOut :=
  if !skip_cache then
    match load_cache file now ip_address with
    | some cached =>
      if dictTruthy cached then
        ⟨.ok cached, file, [], true, false⟩
      else
        geoFetch net file now ip_address true
    | none => geoFetch net file now ip_address true
  else
    geoFetch net file now ip_address false

/-- The condition under which the cache check of `get_ip_info` (with
`skip_cache=False`) returns early: a non-expired entry whose record is
truthy (non-empty). -/
def cacheHit (file : CacheFile) (now : Int) (ip_address : String) : Bool :=
  match load_cache file now ip_address with
  | some cached => dictTruthy cached
  | none => false

/-! ## Concrete scenario fixtures -/

/-- A sample geo record. -/
def sampleInfo : JDict := [("city", .str "Paris"), ("org", .str "OrgA")]

/-- A cache file holding one entry for `1.2.3.4` taken at time 0 whose
record is the empty dict (the state `save_cache` leaves after the
primary provider answers 200 with body `{}`). -/
def emptyInfoFile : CacheFile := some [("1.2.3.4", ⟨0, []⟩)]

/-- A network where the primary provider answers 200 with a normal
body. -/
def netPrimaryOk : Net := ⟨.ok 200 sampleInfo, .ok 200 []⟩

/-- A network where the primary provider answers 200 with a body whose
`error` field is the empty string (falsy). -/
def netFalsyError : Net := ⟨.ok 200 [("error", .str "")], .ok 200 []⟩

/-- A network where the primary provider is rate limited (429) and the
fallback provider answers 200. -/
def netRateLimited : Net :=
  ⟨.ok 429 [],
   .ok 200 [("country", .str "X"), ("city", .str "Y"),
            ("latitude", .num 1), ("longitude", .num 2), ("IPv4", .str "Z")]⟩

/-- A network where the primary provider raises a transport
exception. -/
def netDown : Net := ⟨.exn "connection refused", .exn "connection refused"⟩

/-- The secondary-provider response of the claim's concrete example:
`{"country": "X", "city": "Y", "latitude": 1, "longitude": 2, "IPv4": "Z"}`. -/
def exampleFb : JDict :=
  [("country", .str "X"), ("city", .str "Y"),
   ("latitude", .num 1), ("longitude", .num 2), ("IPv4", .str "Z")]

/-- An echo-endpoint environment in which every endpoint raises a
transport exception. -/
def envAllDown : String → EchoResp := fun _ => .exn "dns failure"

/-- A network where the primary provider answers 200 with a body whose
`error` field carries a non-empty message. -/
def netApiError : Net := ⟨.ok 200 [("error", .str "invalid")], .ok 200 []⟩

/-- A cache file holding a fresh (non-expired) non-empty entry for
`1.2.3.4`. -/
def freshFile : CacheFile := some [("1.2.3.4", ⟨0, [("city", .str "Old")]⟩)]

/-! ## Association-list lemmas for the cache store -/

theorem lookup_map_replace_self (data : Store) (ip : String) (e : CacheEntry)
    (h : (data.lookup ip).isSome) :
    (data.map (fun p => if p.1 == ip then (p.1, e) else p)).lookup ip = some e := by
  induction data with
  | nil => simp at h
  | cons hd tl ih =>
    obtain ⟨k, v⟩ := hd
    by_cases hk : k = ip
    · subst hk
      simp [List.lookup_cons]
    · have h1 : (ip == k) = false := beq_false_of_ne (Ne.symm hk)
      have h2 : (k == ip) = false := beq_false_of_ne hk
      simp only [List.lookup_cons, h1, cond_false] at h
      simp only [List.map_cons, h2, Bool.false_eq_true, if_false, List.lookup_cons, h1,
        cond_false]
      exact ih h

theorem lookup_dictInsert_self (data : Store) (ip : String) (e : CacheEntry) :
    (dictInsert data ip e).lookup ip = some e := by
  unfold dictInsert
  by_cases h : (data.lookup ip).isSome
  · simp only [h, if_true]
    exact lookup_map_replace_self data ip e h
  · simp only [h, Bool.false_eq_true, if_false]
    have hn : data.lookup ip = none := by
      cases hl : data.lookup ip with
      | none => rfl
      | some x => rw [hl] at h; simp at h
    rw [List.lookup_append, hn]
    simp [List.lookup_cons]

theorem lookup_map_replace_other (data : Store) (ip other : String) (e : CacheEntry)
    (hne : other ≠ ip) :
    (data.map (fun p => if p.1 == ip then (p.1, e) else p)).lookup other =
      data.lookup other := by
  induction data with
  | nil => simp
  | cons hd tl ih =>
    obtain ⟨k, v⟩ := hd
    by_cases hk : k = ip
    · subst hk
      have hne' : (other == k) = false := beq_false_of_ne hne
      simp only [List.map_cons, beq_self_eq_true, if_true, List.lookup_cons, hne',
        cond_false]
      exact ih
    · have hk' : (k == ip) = false := beq_false_of_ne hk
      simp only [List.map_cons, hk', Bool.false_eq_true, if_false, List.lookup_cons]
      cases ho : (other == k) with
      | true => simp
      | false => simpa using ih

theorem lookup_dictInsert_other (data : Store) (ip other : String) (e : CacheEntry)
    (hne : other ≠ ip) :
    (dictInsert data ip e).lookup other = data.lookup other := by
  unfold dictInsert
  by_cases h : (data.lookup ip).isSome
  · simp only [h, if_true]
    exact lookup_map_replace_other data ip other e hne
  · simp only [h, Bool.false_eq_true, if_false]
    rw [List.lookup_append]
    have hne' : (other == ip) = false := beq_false_of_ne hne
    simp [List.lookup_cons, hne']

/-! ## Claim theorems -/

/-- C6: `load_cache` returns absent exactly when the cache file does
not exist, the store has no entry for the IP, or the entry's age
exceeds the 24-hour TTL; it returns the entry's record exactly while
`now - timestamp ≤ CACHE_TTL`, so it never returns a stale entry. -/
theorem load_cache_absent_iff (file : CacheFile) (now : Int) (ip : String) :
    (load_cache file now ip = none ↔
      file = none ∨
      (∃ data, file = some data ∧ data.lookup ip = none) ∨
      (∃ data e, file = some data ∧ data.lookup ip = some e ∧
        now - e.timestamp > CACHE_TTL)) ∧
    (∀ data e, file = some data → data.lookup ip = some e →
      now - e.timestamp ≤ CACHE_TTL → load_cache file now ip = some e.info) ∧
    (∀ info, load_cache file now ip = some info →
      ∃ data e, file = some data ∧ data.lookup ip = some e ∧
        now - e.timestamp ≤ CACHE_TTL ∧ info = e.info) := by
  refine ⟨?_, ?_, ?_⟩
  · cases file with
    | none => simp [load_cache]
    | some data =>
      cases hl : data.lookup ip with
      | none =>
        constructor
        · intro _
          exact Or.inr (Or.inl ⟨data, rfl, hl⟩)
        · intro _
          simp [load_cache, hl]
      | some e =>
        by_cases hexp : now - e.timestamp > CACHE_TTL
        · constructor
          · intro _
            exact Or.inr (Or.inr ⟨data, e, rfl, hl, hexp⟩)
          · intro _
            simp [load_cache, hl, hexp]
        · constructor
          · intro hc
            simp only [load_cache, hl, hexp, if_false] at hc
            exact absurd hc (by simp)
          · rintro (h | ⟨d, hd, hdl⟩ | ⟨d, e', hd, hdl, hexp'⟩)
            · exact absurd h (by simp)
            · obtain rfl : data = d := by injection hd
              rw [hl] at hdl
              exact absurd hdl (by simp)
            · obtain rfl : data = d := by injection hd
              rw [hl] at hdl
              obtain rfl : e = e' := Option.some.inj hdl
              exact absurd hexp' hexp
  · rintro data e rfl hl hle
    simp only [load_cache, hl]
    rw [if_neg (not_lt.mpr hle)]
  · intro info hsome
    cases file with
    | none => simp [load_cache] at hsome
    | some data =>
      cases hl : data.lookup ip with
      | none => simp [load_cache, hl] at hsome
      | some e =>
        by_cases hexp : now - e.timestamp > CACHE_TTL
        · simp [load_cache, hl, hexp] at hsome
        · simp only [load_cache, hl, hexp, if_false] at hsome
          exact ⟨data, e, rfl, hl, not_lt.mp hexp, (Option.some.inj hsome).symm⟩

/-- C6 witness: a concrete non-expired entry is returned. -/
theorem load_cache_absent_iff_witness :
    ([(("1.2.3.4" : String), (⟨0, sampleInfo⟩ : CacheEntry))].lookup "1.2.3.4" =
      some ⟨0, sampleInfo⟩) ∧
    ((5 : Int) - 0 ≤ CACHE_TTL) ∧
    load_cache (some [("1.2.3.4", ⟨0, sampleInfo⟩)]) 5 "1.2.3.4" = some sampleInfo :=
  ⟨by decide, by decide,
    (load_cache_absent_iff (some [("1.2.3.4", ⟨0, sampleInfo⟩)]) 5 "1.2.3.4").2.1
      [("1.2.3.4", ⟨0, sampleInfo⟩)] ⟨0, sampleInfo⟩ rfl (by decide) (by decide)⟩

/-- C7: `save_cache(ip, record)` at time `t` followed by
`load_cache(ip)` at any time `t'` within the TTL window returns a
record equal to `record`. -/
theorem put_get_roundtrip (file : CacheFile) (t tq : Int) (ip : String) (record : JDict)
    (h : tq - t ≤ CACHE_TTL) :
    load_cache (some (save_cache file t ip record)) tq ip = some record := by
  simp only [load_cache, save_cache, lookup_dictInsert_self]
  rw [if_neg (not_lt.mpr h)]

/-- C7 witness: the round trip at a concrete store, record and pair of
times inside the TTL window. -/
theorem put_get_roundtrip_witness :
    ((100 : Int) - 10 ≤ CACHE_TTL) ∧
    load_cache (some (save_cache (some [("9.9.9.9", ⟨0, []⟩)]) 10 "1.2.3.4" sampleInfo))
      100 "1.2.3.4" = some sampleInfo :=
  ⟨by decide,
    put_get_roundtrip (some [("9.9.9.9", ⟨0, []⟩)]) 10 100 "1.2.3.4" sampleInfo (by decide)⟩

/-- C9: `save_cache` loads the existing store (empty if the file does
not exist), upserts only the entry for `ip` with the current timestamp,
and writes the whole store back: the looked-up IP maps to the new
entry, and every other IP maps to exactly what it mapped to before. -/
theorem save_cache_frame (file : CacheFile) (now : Int) (ip : String) (info : JDict)
    (other : String) (hne : other ≠ ip) :
    (save_cache file now ip info).lookup ip = some ⟨now, info⟩ ∧
    (save_cache file now ip info).lookup other = (file.getD []).lookup other := by
  constructor
  · exact lookup_dictInsert_self (file.getD []) ip ⟨now, info⟩
  · exact lookup_dictInsert_other (file.getD []) ip other ⟨now, info⟩ hne

/-- C9 witness: upserting `1.2.3.4` into a store holding `9.9.9.9`
keeps the other entry unchanged and installs the new one. -/
theorem save_cache_frame_witness :
    (("9.9.9.9" : String) ≠ "1.2.3.4") ∧
    (save_cache (some [("9.9.9.9", ⟨7, sampleInfo⟩)]) 10 "1.2.3.4" []).lookup "1.2.3.4" =
      some ⟨10, []⟩ ∧
    (save_cache (some [("9.9.9.9", ⟨7, sampleInfo⟩)]) 10 "1.2.3.4" []).lookup "9.9.9.9" =
      ((some [("9.9.9.9", (⟨7, sampleInfo⟩ : CacheEntry))] : CacheFile).getD []).lookup
        "9.9.9.9" :=
  ⟨by decide,
    (save_cache_frame (some [("9.9.9.9", ⟨7, sampleInfo⟩)]) 10 "1.2.3.4" [] "9.9.9.9"
      (by decide)).1,
    (save_cache_frame (some [("9.9.9.9", ⟨7, sampleInfo⟩)]) 10 "1.2.3.4" [] "9.9.9.9"
      (by decide)).2⟩

/-- C4: the fallback mapping prefers a truthy `country_name` field,
falls back to a truthy `country` field, else `"N/A"`; `city` defaults
to `"N/A"`; `latitude`/`longitude` default to numeric 0; `org` comes
from the `IPv4` address-echo field else `"N/A"`; `asn` is always
`"N/A"`; and the claim's concrete example maps to `country_name="X"`,
`org="Z"`, `asn="N/A"`. -/
theorem fallbackMap_spec (fb : JDict) (v : JVal) :
    ((fallbackMap fb).lookup "asn" = some (.str "N/A")) ∧
    (fb.lookup "country_name" = some v → v.truthy = true →
      (fallbackMap fb).lookup "country_name" = some v) ∧
    (fb.lookup "country_name" = none → fb.lookup "country" = some v → v.truthy = true →
      (fallbackMap fb).lookup "country_name" = some v) ∧
    (fb.lookup "country_name" = none → fb.lookup "country" = none →
      (fallbackMap fb).lookup "country_name" = some (.str "N/A")) ∧
    (fb.lookup "city" = some v → v.truthy = true →
      (fallbackMap fb).lookup "city" = some v) ∧
    (fb.lookup "city" = none → (fallbackMap fb).lookup "city" = some (.str "N/A")) ∧
    (fb.lookup "latitude" = some v → v.truthy = true →
      (fallbackMap fb).lookup "latitude" = some v) ∧
    (fb.lookup "latitude" = none → (fallbackMap fb).lookup "latitude" = some (.num 0)) ∧
    (fb.lookup "longitude" = some v → v.truthy = true →
      (fallbackMap fb).lookup "longitude" = some v) ∧
    (fb.lookup "longitude" = none → (fallbackMap fb).lookup "longitude" = some (.num 0)) ∧
    (fb.lookup "IPv4" = some v → v.truthy = true →
      (fallbackMap fb).lookup "org" = some v) ∧
    (fb.lookup "IPv4" = none → (fallbackMap fb).lookup "org" = some (.str "N/A")) ∧
    ((fallbackMap exampleFb).lookup "country_name" = some (.str "X")) ∧
    ((fallbackMap exampleFb).lookup "org" = some (.str "Z")) ∧
    ((fallbackMap exampleFb).lookup "asn" = some (.str "N/A")) := by
  refine ⟨?_, ?_, ?_, ?_, ?_, ?_, ?_, ?_, ?_, ?_, ?_, ?_, by decide, by decide, by decide⟩
  · simp only [fallbackMap]
    rfl
  · intro h ht
    simp [fallbackMap, getTruthy, h, ht, Option.orElse]
  · intro h1 h2 ht
    simp [fallbackMap, getTruthy, h1, h2, ht, Option.orElse]
  · intro h1 h2
    simp [fallbackMap, getTruthy, h1, h2, Option.orElse]
  · intro h ht
    simp only [fallbackMap, getTruthy, h, ht, if_true]
    rfl
  · intro h
    simp only [fallbackMap, getTruthy, h]
    rfl
  · intro h ht
    simp only [fallbackMap, getTruthy, h, ht, if_true]
    rfl
  · intro h
    simp only [fallbackMap, getTruthy, h]
    rfl
  · intro h ht
    simp only [fallbackMap, getTruthy, h, ht, if_true]
    rfl
  · intro h
    simp only [fallbackMap, getTruthy, h]
    rfl
  · intro h ht
    simp only [fallbackMap, getTruthy, h, ht, if_true]
    rfl
  · intro h
    simp only [fallbackMap, getTruthy, h]
    rfl

/-- C4 witness: the preference part applied at the claim's concrete
example response. -/
theorem fallbackMap_spec_witness :
    (exampleFb.lookup "country_name" = none) ∧
    (exampleFb.lookup "country" = some (.str "X")) ∧
    (JVal.str "X").truthy = true ∧
    (fallbackMap exampleFb).lookup "country_name" = some (.str "X") :=
  ⟨by decide, by decide, by decide,
    (fallbackMap_spec exampleFb (.str "X")).2.2.1 (by decide) (by decide) (by decide)⟩

/-- The echo-endpoint loop of `get_ip_address` records the error of a
failing endpoint and moves to the next one. -/
theorem resolveLoop_fail (env : String → EchoResp) (t url : String)
    (rest : List String) (lastError : Option String)
    (h : echoFails (env url) = true) :
    resolveLoop env t (url :: rest) lastError =
      resolveLoop env t rest (echoErrMsg (env url)) := by
  cases henv : env url with
  | ok s text =>
    rw [henv] at h
    simp only [echoFails] at h
    simp [resolveLoop, henv, h, echoErrMsg]
  | exn m =>
    simp [resolveLoop, henv, echoErrMsg]

/-- C5: when every echo endpoint fails, `get_ip_address` signals
`Ipv6Unsupported` for the v6 endpoint list and `NetworkFailure`
carrying the last underlying error for the v4 list, and the two
failure kinds are distinct. -/
theorem get_ip_address_allfail (env : String → EchoResp)
    (h4 : echoFails (env "https://api.ipify.org") = true)
    (h6a : echoFails (env "https://api6.ipify.org") = true)
    (h6b : echoFails (env "https://ipv6.icanhazip.com") = true) :
    get_ip_address env "ipv4" =
      .networkFailure (echoErrMsg (env "https://api.ipify.org")) ∧
    get_ip_address env "ipv6" = .ipv6Unsupported ∧
    ∀ msg, ResolveResult.networkFailure msg ≠ ResolveResult.ipv6Unsupported := by
  refine ⟨?_, ?_, fun msg h => ResolveResult.noConfusion h⟩
  · have h1 : get_ip_address env "ipv4" =
        resolveLoop env "ipv4" ["https://api.ipify.org"] none := by
      simp [get_ip_address]
    rw [h1, resolveLoop_fail env "ipv4" _ [] none h4]
    simp [resolveLoop]
  · have h1 : get_ip_address env "ipv6" =
        resolveLoop env "ipv6" ["https://api6.ipify.org", "https://ipv6.icanhazip.com"]
          none := by
      simp [get_ip_address]
    rw [h1, resolveLoop_fail env "ipv6" _ _ none h6a,
      resolveLoop_fail env "ipv6" _ [] _ h6b]
    simp [resolveLoop]

/-- C5 witness: with every endpoint raising a transport exception, v4
resolution fails with `NetworkFailure` of the last error and v6
resolution fails with `Ipv6Unsupported`. -/
theorem get_ip_address_allfail_witness :
    echoFails (envAllDown "https://api.ipify.org") = true ∧
    get_ip_address envAllDown "ipv4" = .networkFailure (some "dns failure") ∧
    get_ip_address envAllDown "ipv6" = .ipv6Unsupported :=
  ⟨rfl,
    (get_ip_address_allfail envAllDown rfl rfl rfl).1,
    (get_ip_address_allfail envAllDown rfl rfl rfl).2.1⟩

/-- C1 counterexample: the cache can hold a non-expired entry whose
record is the empty dict (cached after a 200 response with body `{}`);
`get_ip_info` then ignores the valid entry (Python `if cached:` is
false on an empty dict), issues a network call, and does not return the
entry's record. -/
theorem cache_hit_counterexample :
    (load_cache emptyInfoFile 0 "1.2.3.4" = some []) ∧
    ((0 : Int) - 0 ≤ CACHE_TTL) ∧
    (get_ip_info netPrimaryOk emptyInfoFile 0 "1.2.3.4" false).calls ≠ [] ∧
    (get_ip_info netPrimaryOk emptyInfoFile 0 "1.2.3.4" false).result ≠ .ok [] := by
  decide

/-- C1 (amended): for every IP with a non-expired cache entry whose
record is non-empty, `get_ip_info` with `skip_cache=false` returns that
record, issues zero network calls, and leaves the cache unchanged. -/
theorem cache_hit_returns_entry (net : Net) (file : CacheFile) (now : Int) (ip : String)
    (info : JDict) (h : load_cache file now ip = some info) (hne : info ≠ []) :
    get_ip_info net file now ip false = ⟨.ok info, file, [], true, false⟩ := by
  have ht : dictTruthy info = true := by
    cases info with
    | nil => exact absurd rfl hne
    | cons a l => rfl
  simp [get_ip_info, h, ht]

/-- C1 witness: a fresh entry is served from the cache even with the
network unreachable. -/
theorem cache_hit_returns_entry_witness :
    (load_cache (some [("1.2.3.4", ⟨0, sampleInfo⟩)]) 5 "1.2.3.4" = some sampleInfo) ∧
    sampleInfo ≠ [] ∧
    get_ip_info netDown (some [("1.2.3.4", ⟨0, sampleInfo⟩)]) 5 "1.2.3.4" false =
      ⟨.ok sampleInfo, some [("1.2.3.4", ⟨0, sampleInfo⟩)], [], true, false⟩ :=
  ⟨by decide, by decide,
    cache_hit_returns_entry netDown (some [("1.2.3.4", ⟨0, sampleInfo⟩)]) 5 "1.2.3.4"
      sampleInfo (by decide) (by decide)⟩

/-- On a cache miss (no truthy, non-expired entry) `get_ip_info` with
`skip_cache=false` runs the network phase. -/
theorem get_ip_info_miss (net : Net) (file : CacheFile) (now : Int) (ip : String)
    (h : cacheHit file now ip = false) :
    get_ip_info net file now ip false = geoFetch net file now ip true := by
  unfold cacheHit at h
  cases hl : load_cache file now ip with
  | none => simp [get_ip_info, hl]
  | some c =>
    rw [hl] at h
    have h' : dictTruthy c = false := h
    simp [get_ip_info, hl, h']

/-- C2: on a cache miss, exactly one primary request is issued; the
fallback is queried iff the primary answered HTTP 429; a non-429 HTTP
error from the primary is terminal `ProviderError` with no fallback and
no cache write; and a successful fallback's record is written to the
cache under the looked-up IP and returned. -/
theorem miss_provider_chain (net : Net) (file : CacheFile) (now : Int) (ip : String)
    (h : cacheHit file now ip = false) :
    ((get_ip_info net file now ip false).calls.count .primary = 1) ∧
    (Call.fallback ∈ (get_ip_info net file now ip false).calls ↔
      ∃ body, net.primary = .ok 429 body) ∧
    (∀ status body, net.primary = .ok status body → isHttpError status = true →
      status ≠ 429 →
      get_ip_info net file now ip false =
        ⟨.providerError status, file, [.primary], true, false⟩) ∧
    (∀ body fbStatus fbdata, net.primary = .ok 429 body →
      net.fallback = .ok fbStatus fbdata → isHttpError fbStatus = false →
      get_ip_info net file now ip false =
        ⟨.ok (fallbackMap fbdata), some (save_cache file now ip (fallbackMap fbdata)),
          [.primary, .fallback], true, true⟩ ∧
      (save_cache file now ip (fallbackMap fbdata)).lookup ip =
        some ⟨now, fallbackMap fbdata⟩) := by
  rw [get_ip_info_miss net file now ip h]
  refine ⟨?_, ?_, ?_, ?_⟩
  · cases hp : net.primary with
    | exn m =>
      simp [geoFetch, hp, List.count_cons, List.count_nil, beq_iff_eq]
    | ok s b =>
      cases hs : isHttpError s with
      | true =>
        cases h429 : s == 429 with
        | true =>
          cases hf : net.fallback with
          | exn m =>
            simp [geoFetch, hp, hf, hs, h429, List.count_cons, List.count_nil, beq_iff_eq]
          | ok fs fd =>
            cases hfs : isHttpError fs with
            | true =>
              simp [geoFetch, hp, hf, hs, h429, hfs, List.count_cons, List.count_nil,
                beq_iff_eq]
            | false =>
              simp [geoFetch, hp, hf, hs, h429, hfs, List.count_cons, List.count_nil,
                beq_iff_eq]
        | false =>
          simp [geoFetch, hp, hs, h429, List.count_cons, List.count_nil, beq_iff_eq]
      | false =>
        cases he : b.lookup "error" with
        | none =>
          simp [geoFetch, hp, hs, he, List.count_cons, List.count_nil, beq_iff_eq]
        | some v =>
          cases ht : v.truthy with
          | true =>
            simp [geoFetch, hp, hs, he, ht, List.count_cons, List.count_nil, beq_iff_eq]
          | false =>
            simp [geoFetch, hp, hs, he, ht, List.count_cons, List.count_nil, beq_iff_eq]
  · cases hp : net.primary with
    | exn m => simp [geoFetch, hp]
    | ok s b =>
      cases hs : isHttpError s with
      | true =>
        cases h429 : s == 429 with
        | true =>
          obtain rfl : s = 429 := eq_of_beq h429
          cases hf : net.fallback with
          | exn m => simp [geoFetch, hp, hf, hs]
          | ok fs fd =>
            cases hfs : isHttpError fs with
            | true => simp [geoFetch, hp, hf, hs, hfs]
            | false => simp [geoFetch, hp, hf, hs, hfs]
        | false =>
          have hne : s ≠ 429 := by
            intro hc
            rw [hc] at h429
            simp at h429
          simp [geoFetch, hp, hs, h429, hne]
      | false =>
        have hne : s ≠ 429 := by
          intro hc
          rw [hc] at hs
          simp [isHttpError] at hs
        cases he : b.lookup "error" with
        | none => simp [geoFetch, hp, hs, he, hne]
        | some v =>
          cases ht : v.truthy with
          | true => simp [geoFetch, hp, hs, he, ht, hne]
          | false => simp [geoFetch, hp, hs, he, ht, hne]
  · intro status body hp hs hne
    have h429 : (status == 429) = false := by
      cases hb : status == 429 with
      | true => exact absurd (eq_of_beq hb) hne
      | false => rfl
    simp [geoFetch, hp, hs, h429]
  · intro body fbStatus fbdata hp hf hfs
    constructor
    · have h429t : isHttpError 429 = true := rfl
      simp [geoFetch, hp, hf, hfs, h429t]
    · exact lookup_dictInsert_self (file.getD []) ip ⟨now, fallbackMap fbdata⟩

/-- C2 witness: a concrete rate-limited primary with a healthy
fallback takes the fallback path and caches its record. -/
theorem miss_provider_chain_witness :
    cacheHit none 0 "8.8.8.8" = false ∧
    (get_ip_info netRateLimited none 0 "8.8.8.8" false).calls.count .primary = 1 ∧
    get_ip_info netRateLimited none 0 "8.8.8.8" false =
      ⟨.ok (fallbackMap exampleFb), some (save_cache none 0 "8.8.8.8" (fallbackMap exampleFb)),
        [.primary, .fallback], true, true⟩ :=
  ⟨by decide,
    (miss_provider_chain netRateLimited none 0 "8.8.8.8" (by decide)).1,
    ((miss_provider_chain netRateLimited none 0 "8.8.8.8" (by decide)).2.2.2
      [] 200 exampleFb rfl rfl (by decide)).1⟩

/-- C3 counterexample: a primary 200 response whose body carries the
`error` field with an empty (falsy) message does not signal `ApiError`:
the code returns the body as the record and writes it to the cache
(Python `if data.get('error'):` is false on `""`). -/
theorem api_error_counterexample :
    ([(("error" : String), JVal.str "")].lookup "error" = some (.str "")) ∧
    (get_ip_info netFalsyError none 0 "1.2.3.4" false).result = .ok [("error", .str "")] ∧
    (get_ip_info netFalsyError none 0 "1.2.3.4" false).wrote = true := by
  decide

/-- C3 (amended): when the primary provider's 2xx response body carries
a truthy (non-empty) application-level `error` field, `get_ip_info`
signals `ApiError` carrying the provider's message; the failure is
terminal — no fallback request and no cache write. -/
theorem api_error_terminal (net : Net) (file : CacheFile) (now : Int) (ip : String)
    (status : Nat) (body : JDict) (v : JVal)
    (hmiss : cacheHit file now ip = false)
    (hp : net.primary = .ok status body)
    (hs : isHttpError status = false)
    (he : body.lookup "error" = some v)
    (ht : v.truthy = true) :
    get_ip_info net file now ip false = ⟨.apiError v, file, [.primary], true, false⟩ := by
  rw [get_ip_info_miss net file now ip hmiss]
  simp [geoFetch, hp, hs, he, ht]

/-- C3 witness: the spec's `{"error": "invalid"}` scenario. -/
theorem api_error_terminal_witness :
    cacheHit none 0 "1.2.3.4" = false ∧
    netApiError.primary = .ok 200 [("error", .str "invalid")] ∧
    isHttpError 200 = false ∧
    ([(("error" : String), JVal.str "invalid")].lookup "error" = some (.str "invalid")) ∧
    (JVal.str "invalid").truthy = true ∧
    get_ip_info netApiError none 0 "1.2.3.4" false =
      ⟨.apiError (.str "invalid"), none, [.primary], true, false⟩ :=
  ⟨by decide, rfl, rfl, by decide, rfl,
    api_error_terminal netApiError none 0 "1.2.3.4" 200 [("error", .str "invalid")]
      (.str "invalid") (by decide) rfl rfl (by decide) rfl⟩

/-- With `skip_cache=True` the cache check is bypassed entirely. -/
theorem get_ip_info_skip (net : Net) (file : CacheFile) (now : Int) (ip : String) :
    get_ip_info net file now ip true = geoFetch net file now ip false := by
  simp [get_ip_info]

/-- The network phase never reads the cache state it was given, so its
outcome and its request trace are the same for any two cache files. -/
theorem geoFetch_file_indep (net : Net) (f1 f2 : CacheFile) (now : Int) (ip : String)
    (cr : Bool) :
    (geoFetch net f1 now ip cr).result = (geoFetch net f2 now ip cr).result ∧
    (geoFetch net f1 now ip cr).calls = (geoFetch net f2 now ip cr).calls := by
  cases hp : net.primary with
  | exn m => simp [geoFetch, hp]
  | ok s b =>
    cases hs : isHttpError s with
    | true =>
      cases h429 : s == 429 with
      | true =>
        cases hf : net.fallback with
        | exn m => simp [geoFetch, hp, hf, hs, h429]
        | ok fs fd =>
          cases hfs : isHttpError fs with
          | true => simp [geoFetch, hp, hf, hs, h429, hfs]
          | false => simp [geoFetch, hp, hf, hs, h429, hfs]
      | false => simp [geoFetch, hp, hs, h429]
    | false =>
      cases he : b.lookup "error" with
      | none => simp [geoFetch, hp, hs, he]
      | some v =>
        cases ht : v.truthy with
        | true => simp [geoFetch, hp, hs, he, ht]
        | false => simp [geoFetch, hp, hs, he, ht]

/-- The network phase reports exactly the `cacheRead` flag it was
entered with. -/
theorem geoFetch_cacheRead (net : Net) (file : CacheFile) (now : Int) (ip : String)
    (cr : Bool) :
    (geoFetch net file now ip cr).cacheRead = cr := by
  cases hp : net.primary with
  | exn m => simp [geoFetch, hp]
  | ok s b =>
    cases hs : isHttpError s with
    | true =>
      cases h429 : s == 429 with
      | true =>
        cases hf : net.fallback with
        | exn m => simp [geoFetch, hp, hf, hs, h429]
        | ok fs fd =>
          cases hfs : isHttpError fs with
          | true => simp [geoFetch, hp, hf, hs, h429, hfs]
          | false => simp [geoFetch, hp, hf, hs, h429, hfs]
      | false => simp [geoFetch, hp, hs, h429]
    | false =>
      cases he : b.lookup "error" with
      | none => simp [geoFetch, hp, hs, he]
      | some v =>
        cases ht : v.truthy with
        | true => simp [geoFetch, hp, hs, he, ht]
        | false => simp [geoFetch, hp, hs, he, ht]

/-- The network phase always issues exactly one primary request. -/
theorem geoFetch_count_primary (net : Net) (file : CacheFile) (now : Int) (ip : String)
    (cr : Bool) :
    (geoFetch net file now ip cr).calls.count .primary = 1 := by
  cases hp : net.primary with
  | exn m => simp [geoFetch, hp, List.count_cons, List.count_nil, beq_iff_eq]
  | ok s b =>
    cases hs : isHttpError s with
    | true =>
      cases h429 : s == 429 with
      | true =>
        cases hf : net.fallback with
        | exn m => simp [geoFetch, hp, hf, hs, h429, List.count_cons, List.count_nil,
            beq_iff_eq]
        | ok fs fd =>
          cases hfs : isHttpError fs with
          | true => simp [geoFetch, hp, hf, hs, h429, hfs, List.count_cons,
              List.count_nil, beq_iff_eq]
          | false => simp [geoFetch, hp, hf, hs, h429, hfs, List.count_cons,
              List.count_nil, beq_iff_eq]
      | false => simp [geoFetch, hp, hs, h429, List.count_cons, List.count_nil,
          beq_iff_eq]
    | false =>
      cases he : b.lookup "error" with
      | none => simp [geoFetch, hp, hs, he, List.count_cons, List.count_nil, beq_iff_eq]
      | some v =>
        cases ht : v.truthy with
        | true => simp [geoFetch, hp, hs, he, ht, List.count_cons, List.count_nil,
            beq_iff_eq]
        | false => simp [geoFetch, hp, hs, he, ht, List.count_cons, List.count_nil,
            beq_iff_eq]

/-- When the network phase returns a record, it has written that record
to the cache under the looked-up IP. -/
theorem geoFetch_success_writes (net : Net) (file : CacheFile) (now : Int) (ip : String)
    (cr : Bool) :
    ∀ info, (geoFetch net file now ip cr).result = .ok info →
      (geoFetch net file now ip cr).wrote = true ∧
      (geoFetch net file now ip cr).file = some (save_cache file now ip info) := by
  intro info hres
  cases hp : net.primary with
  | exn m => simp [geoFetch, hp] at hres
  | ok s b =>
    cases hs : isHttpError s with
    | true =>
      cases h429 : s == 429 with
      | true =>
        cases hf : net.fallback with
        | exn m =>
          simp [geoFetch, hp, hf, hs, h429] at hres
        | ok fs fd =>
          cases hfs : isHttpError fs with
          | true =>
            simp [geoFetch, hp, hf, hs, h429, hfs] at hres
          | false =>
            simp [geoFetch, hp, hf, hs, h429, hfs] at hres
            subst hres
            simp [geoFetch, hp, hf, hs, h429, hfs]
      | false =>
        simp [geoFetch, hp, hs, h429] at hres
    | false =>
      cases he : b.lookup "error" with
      | none =>
        simp [geoFetch, hp, hs, he] at hres
        subst hres
        simp [geoFetch, hp, hs, he]
      | some v =>
        cases ht : v.truthy with
        | true =>
          simp [geoFetch, hp, hs, he, ht] at hres
        | false =>
          simp [geoFetch, hp, hs, he, ht] at hres
          subst hres
          simp [geoFetch, hp, hs, he, ht]

/-- C8: `skip_cache=true` never reads the cache — the invocation's
outcome and request trace are independent of the stored entries, a
primary call is always made — yet a successful lookup still writes a
fresh cache entry. -/
theorem skip_cache_spec (net : Net) (file fileB : CacheFile) (now : Int) (ip : String) :
    ((get_ip_info net file now ip true).cacheRead = false) ∧
    ((get_ip_info net file now ip true).calls.count .primary = 1) ∧
    ((get_ip_info net file now ip true).result = (get_ip_info net fileB now ip true).result ∧
      (get_ip_info net file now ip true).calls = (get_ip_info net fileB now ip true).calls) ∧
    (∀ info, (get_ip_info net file now ip true).result = .ok info →
      (get_ip_info net file now ip true).wrote = true ∧
      (get_ip_info net file now ip true).file = some (save_cache file now ip info)) := by
  rw [get_ip_info_skip net file now ip, get_ip_info_skip net fileB now ip]
  exact ⟨geoFetch_cacheRead net file now ip false,
    geoFetch_count_primary net file now ip false,
    geoFetch_file_indep net file fileB now ip false,
    geoFetch_success_writes net file now ip false⟩

/-- C8 witness: with a fresh non-empty cached entry present,
`skip_cache=true` still calls the provider and overwrites the entry
with the provider's record. -/
theorem skip_cache_spec_witness :
    (get_ip_info netPrimaryOk freshFile 0 "1.2.3.4" true).cacheRead = false ∧
    (get_ip_info netPrimaryOk freshFile 0 "1.2.3.4" true).wrote = true ∧
    (get_ip_info netPrimaryOk freshFile 0 "1.2.3.4" true).file =
      some (save_cache freshFile 0 "1.2.3.4" sampleInfo) :=
  ⟨(skip_cache_spec netPrimaryOk freshFile none 0 "1.2.3.4").1,
    ((skip_cache_spec netPrimaryOk freshFile none 0 "1.2.3.4").2.2.2 sampleInfo
      (by decide)).1,
    ((skip_cache_spec netPrimaryOk freshFile none 0 "1.2.3.4").2.2.2 sampleInfo
      (by decide)).2⟩

/-- On any failure outcome the network phase leaves the cache file
untouched and performs no write; a write implies success. -/
theorem geoFetch_failure_frame (net : Net) (file : CacheFile) (now : Int) (ip : String)
    (cr : Bool) :
    ((geoFetch net file now ip cr).result.isOk = false →
      (geoFetch net file now ip cr).file = file ∧
      (geoFetch net file now ip cr).wrote = false) ∧
    ((geoFetch net file now ip cr).wrote = true →
      (geoFetch net file now ip cr).result.isOk = true) := by
  cases hp : net.primary with
  | exn m => simp [geoFetch, hp, LookupResult.isOk]
  | ok s b =>
    cases hs : isHttpError s with
    | true =>
      cases h429 : s == 429 with
      | true =>
        cases hf : net.fallback with
        | exn m => simp [geoFetch, hp, hf, hs, h429, LookupResult.isOk]
        | ok fs fd =>
          cases hfs : isHttpError fs with
          | true => simp [geoFetch, hp, hf, hs, h429, hfs, LookupResult.isOk]
          | false => simp [geoFetch, hp, hf, hs, h429, hfs, LookupResult.isOk]
      | false => simp [geoFetch, hp, hs, h429, LookupResult.isOk]
    | false =>
      cases he : b.lookup "error" with
      | none => simp [geoFetch, hp, hs, he, LookupResult.isOk]
      | some v =>
        cases ht : v.truthy with
        | true => simp [geoFetch, hp, hs, he, ht, LookupResult.isOk]
        | false => simp [geoFetch, hp, hs, he, ht, LookupResult.isOk]

/-- C10: on every failure outcome of `get_ip_info` the cache store is
left completely unchanged and no write is performed; a cache write
occurs only on the success path that returns a record. -/
theorem failure_leaves_cache_unchanged (net : Net) (file : CacheFile) (now : Int)
    (ip : String) (skip : Bool) :
    ((get_ip_info net file now ip skip).result.isOk = false →
      (get_ip_info net file now ip skip).file = file ∧
      (get_ip_info net file now ip skip).wrote = false) ∧
    ((get_ip_info net file now ip skip).wrote = true →
      (get_ip_info net file now ip skip).result.isOk = true) := by
  cases skip with
  | true =>
    rw [get_ip_info_skip net file now ip]
    exact geoFetch_failure_frame net file now ip false
  | false =>
    cases hl : load_cache file now ip with
    | none =>
      have hm : cacheHit file now ip = false := by simp [cacheHit, hl]
      rw [get_ip_info_miss net file now ip hm]
      exact geoFetch_failure_frame net file now ip true
    | some c =>
      cases ht : dictTruthy c with
      | true => simp [get_ip_info, hl, ht, LookupResult.isOk]
      | false =>
        have hm : cacheHit file now ip = false := by simp [cacheHit, hl, ht]
        rw [get_ip_info_miss net file now ip hm]
        exact geoFetch_failure_frame net file now ip true

/-- C10 witness: a transport failure reaching the primary leaves the
(absent) cache file absent and writes nothing. -/
theorem failure_leaves_cache_unchanged_witness :
    (get_ip_info netDown none 0 "1.2.3.4" false).file = none ∧
    (get_ip_info netDown none 0 "1.2.3.4" false).wrote = false :=
  (failure_leaves_cache_unchanged netDown none 0 "1.2.3.4" false).1 (by decide)

end IpApp
